import Mathlib

/-!
Shallow embedding of `create_dmg_background.py`, a one-shot generator of a
500×300 DMG installer background image.  The script fills the canvas with a
horizontal-line gradient, resolves fonts through try/except fallback chains,
draws a shadowed title and subtitle, and saves a PNG to a fixed path.

Modelling conventions:
* Colors are the raw `(r, g, b)` triples the script passes to PIL drawing
  calls; no clamping or wrapping by PIL is modelled, since the claims are
  about the values handed to the calls.
* The canvas is a total function from pixel coordinates to colors; PIL's
  `draw.line` for the horizontal segments used here paints every pixel with
  the given row index and column between the two endpoints inclusive
  (columns beyond the canvas are simply never observed).
* `int(240 + (15 * y / height))` is evaluated in Python with float division.
  For `0 ≤ y < 300` the rational value `15*y/300 = y/20` is at distance at
  least `1/20` below the next integer whenever it is not an exact integer,
  which dwarfs the double-rounding error of the float computation, so the
  truncation equals `⌊15*y/300⌋`, i.e. natural-number division.
* Font loading is an environment oracle: `truetype path size` returns
  `some handle` on success and `none` when `ImageFont.truetype` raises (the
  bare `except:` catches every exception); `loadDefault` is `none` exactly
  when `ImageFont.load_default()` itself raises, which the script does not
  catch.
* Text metrics (`draw.textbbox`) are another oracle, since they depend on
  the host's font files, which are not part of the repository.
* The run result records the image dimensions, the ordered trace of drawing
  operations, the directories created, the files saved and the lines
  printed.  A `none` result is an uncaught exception (default font missing).
-/

namespace DmgBackground

/-- RGB triple exactly as passed to a PIL drawing call. -/
abbrev Color := Nat × Nat × Nat

/-- `width, height = 500, 300`. -/
def width : Nat := 500

/-- `width, height = 500, 300`. -/
def height : Nat := 300

/-- `color_value = int(240 + (15 * y / height))` for row `y` (see the header
note for why float truncation coincides with natural division here). -/
def color_value (y : Nat) : Nat := 240 + 15 * y / height

/-- `color = (color_value, color_value + 10, color_value + 20)`. -/
def gradColor (y : Nat) : Color :=
  (color_value y, color_value y + 10, color_value y + 20)

/-- The in-memory pixel buffer. -/
abbrev Canvas := Nat → Nat → Color

/-- `Image.new('RGB', (width, height), color='white')`: every pixel starts
white. -/
def initCanvas : Canvas := fun _ _ => (255, 255, 255)

/-- `draw.line([(x0, y0), (x1, y0)], fill=col)` for the horizontal segments
the script draws: paints columns `x0..x1` (inclusive) of row `y0`. -/
def drawLine (c : Canvas) (x0 y0 x1 : Nat) (col : Color) : Canvas :=
  fun px py => if py = y0 ∧ x0 ≤ px ∧ px ≤ x1 then col else c px py

/-- The gradient pass: `for y in range(height): draw.line([(0, y),
(width, y)], fill=color)`. -/
def gradientFill (c : Canvas) : Canvas :=
  (List.range height).foldl (fun img y => drawLine img 0 y width (gradColor y)) c

lemma gradientFold_not_mem (L : List Nat) (c : Canvas) (x y : Nat)
    (hy : y ∉ L) :
    (L.foldl (fun img r => drawLine img 0 r width (gradColor r)) c) x y
      = c x y := by
  induction L generalizing c with
  | nil => rfl
  | cons r L ih =>
    have h1 : y ≠ r := fun h => hy (h ▸ List.mem_cons_self r L)
    have h2 : y ∉ L := fun h => hy (List.mem_cons_of_mem r h)
    simp only [List.foldl_cons]
    rw [ih _ h2]
    simp [drawLine, h1]

lemma gradientFold_mem (L : List Nat) (c : Canvas) (x y : Nat)
    (hnd : L.Nodup) (hy : y ∈ L) (hx : x ≤ width) :
    (L.foldl (fun img r => drawLine img 0 r width (gradColor r)) c) x y
      = gradColor y := by
  induction L generalizing c with
  | nil => cases hy
  | cons r L ih =>
    simp only [List.foldl_cons]
    rcases List.mem_cons.mp hy with h | h
    · subst h
      rw [gradientFold_not_mem L _ x y (List.nodup_cons.mp hnd).1]
      simp [drawLine, hx]
    · exact ih _ (List.nodup_cons.mp hnd).2 h

/-- Claim C2: for every row `y` in `[0, 300)`, the gradient pass paints the
entire row with the color `(t, t + 10, t + 20)` where `t` is the integer
truncation of `240 + 15 * y / 300`. -/
theorem gradient_paints_rows (y : Nat) (hy : y < 300) (x : Nat) (hx : x < 500) :
    gradientFill initCanvas x y
      = (240 + 15 * y / 300, 240 + 15 * y / 300 + 10, 240 + 15 * y / 300 + 20) := by
  have h := gradientFold_mem (List.range height) initCanvas x y
    (List.nodup_range _) (List.mem_range.mpr hy) (le_of_lt hx)
  exact h

/-- Claim C2 witness: the theorem evaluated at row 7, column 3. -/
theorem gradient_paints_rows_witness :
    gradientFill initCanvas 3 7 = (240, 250, 260) := by
  have h := gradient_paints_rows 7 (by decide) 3 (by decide)
  simpa using h

/-- Claim C3 counterexample: at row 0 the blue channel of the gradient color
is `color_value 0 + 20 = 260`, which does not lie in `[240, 255]`, refuting
the claim that all three channel values lie in that range. -/
theorem gradient_channels_counterexample :
    (gradColor 0).2.2 = 260 ∧ ¬ ((gradColor 0).2.2 ≤ 255) := by
  constructor <;> decide

/-- Claim C3 (amended): for every row `y` in `[0, 300)` the red channel
`t = color_value y` lies in `[240, 255]` (in fact `[240, 254]`), the green
channel `t + 10` lies in `[250, 264]` and the blue channel `t + 20` lies in
`[260, 274]`; only the red channel stays within the 240–255 range. -/
theorem gradient_channel_ranges (y : Nat) (hy : y < 300) :
    240 ≤ (gradColor y).1 ∧ (gradColor y).1 ≤ 254 ∧
    250 ≤ (gradColor y).2.1 ∧ (gradColor y).2.1 ≤ 264 ∧
    260 ≤ (gradColor y).2.2 ∧ (gradColor y).2.2 ≤ 274 := by
  simp only [gradColor, color_value, height]
  omega

/-- Claim C3 (amended) witness: the channel bounds evaluated at row 299. -/
theorem gradient_channel_ranges_witness :
    240 ≤ (gradColor 299).1 ∧ (gradColor 299).1 ≤ 254 ∧
    250 ≤ (gradColor 299).2.1 ∧ (gradColor 299).2.1 ≤ 264 ∧
    260 ≤ (gradColor 299).2.2 ∧ (gradColor 299).2.2 ≤ 274 :=
  gradient_channel_ranges 299 (by decide)

/-- Claim C4: the gradient scalar `color_value` is monotonically
non-decreasing in the row index, and lies in `[240, 255]` for every row in
`[0, 300)`. -/
theorem gradient_monotone (y1 y2 : Nat) (h12 : y1 < y2) (h2 : y2 < 300) :
    color_value y1 ≤ color_value y2 ∧
    (240 ≤ color_value y1 ∧ color_value y1 ≤ 255) ∧
    (240 ≤ color_value y2 ∧ color_value y2 ≤ 255) := by
  simp only [color_value, height]
  omega

/-- Claim C4 witness: monotonicity and bounds evaluated at rows 10 and 250. -/
theorem gradient_monotone_witness :
    color_value 10 ≤ color_value 250 ∧
    (240 ≤ color_value 10 ∧ color_value 10 ≤ 255) ∧
    (240 ≤ color_value 250 ∧ color_value 250 ≤ 255) :=
  gradient_monotone 10 250 (by decide) (by decide)

/-- Claim C10: for every row `y` in `[0, 300)` the blue channel handed to the
drawing call is `color_value y + 20 ≥ 260 > 255`, and for `y ≥ 120` the green
channel `color_value y + 10` also exceeds 255, so the color triples are not
all triples of 8-bit channel intensities. -/
theorem gradient_blue_overflows (y : Nat) (hy : y < 300) :
    260 ≤ (gradColor y).2.2 ∧ 255 < (gradColor y).2.2 ∧
    (120 ≤ y → 255 < (gradColor y).2.1) := by
  simp only [gradColor, color_value, height]
  omega

/-- Claim C10 witness: the overflow facts evaluated at row 120. -/
theorem gradient_blue_overflows_witness :
    260 ≤ (gradColor 120).2.2 ∧ 255 < (gradColor 120).2.2 ∧
    (120 ≤ 120 → 255 < (gradColor 120).2.1) :=
  gradient_blue_overflows 120 (by decide)

/-- An opaque font handle: which resource it came from and at which point
size it was loaded. -/
structure Font where
  source : String
  size : Nat
deriving DecidableEq

/-- Result of `draw.textbbox((0, 0), text, font=f)`. -/
structure BBox where
  x0 : Int
  y0 : Int
  x1 : Int
  y1 : Int
deriving DecidableEq

/-- The host environment the script runs against.  `truetype p s` is the
outcome of `ImageFont.truetype(p, s)` (`none` = raised), `loadDefault` the
outcome of `ImageFont.load_default()`, `textbbox` the host's text metrics,
and `fs` the preexisting file contents on disk, which the generator never
reads. -/
structure Env where
  truetype : String → Nat → Option Font
  loadDefault : Option Font
  textbbox : Font → String → BBox
  fs : String → Option (List Nat)

def arialPath : String := "/System/Library/Fonts/Arial.ttf"

def helveticaPath : String := "/System/Library/Fonts/Helvetica.ttc"

/-- Title font resolution: `try truetype(Arial, 24) except: try
truetype(Helvetica, 24) except: load_default()`; the bare `except:` clauses
catch every exception. -/
def font (env : Env) : Option Font :=
  match env.truetype arialPath 24 with
  | some f => some f
  | none =>
    match env.truetype helveticaPath 24 with
    | some f => some f
    | none => env.loadDefault

/-- Subtitle font resolution: `try truetype(Arial, 16) except:
load_default()`. -/
def small_font (env : Env) : Option Font :=
  match env.truetype arialPath 16 with
  | some f => some f
  | none => env.loadDefault

/-- One drawing call issued against the canvas, in program order. -/
inductive DrawOp where
  | line (x0 y0 x1 y1 : Nat) (fill : Color)
  | text (x y : Int) (s : String) (fill : Color) (f : Font)
deriving DecidableEq

def title : String := "Autobuild"

def subtitle : String := "Drag to Applications folder"

def output_path : String := "native/resources/dmg_background.png"

/-- Observable outcome of a successful run: the dimensions of the allocated
image (never changed by drawing), the ordered trace of drawing calls, the
directories created, the `(path, format)` pairs saved, and the console lines
printed. -/
structure RunResult where
  imgWidth : Nat
  imgHeight : Nat
  ops : List DrawOp
  mkdirs : List String
  saved : List (String × String)
  printed : List String
deriving DecidableEq

/-- The whole script as a function of the host environment.  `none` models
an uncaught exception (only possible when `load_default` itself raises).
Python `//` on ints is floor division, hence `Int.fdiv`. -/
def create_dmg_background (env : Env) : Option RunResult :=
  let gradOps := (List.range height).map fun y =>
    DrawOp.line 0 y width y (gradColor y)
  match font env with
  | none => none
  | some f =>
    let bbox := env.textbbox f title
    let text_width := bbox.x1 - bbox.x0
    let text_height := bbox.y1 - bbox.y0
    let x := ((width : Int) - text_width).fdiv 2
    let y := ((height : Int)).fdiv 2 - text_height - 10
    let titleOps := [DrawOp.text (x + 2) (y + 2) title (100, 100, 100) f,
                     DrawOp.text x y title (50, 50, 50) f]
    match small_font env with
    | none => none
    | some sf =>
      let bbox2 := env.textbbox sf subtitle
      let text_width2 := bbox2.x1 - bbox2.x0
      let x2 := ((width : Int) - text_width2).fdiv 2
      let y2 := ((height : Int)).fdiv 2 + 10
      let subOps := [DrawOp.text (x2 + 1) (y2 + 1) subtitle (120, 120, 120) sf,
                     DrawOp.text x2 y2 subtitle (80, 80, 80) sf]
      some { imgWidth := width
             imgHeight := height
             ops := gradOps ++ titleOps ++ subOps
             mkdirs := ["native/resources"]
             saved := [(output_path, "PNG")]
             printed := ["DMG background image created: " ++ output_path] }

/-- Recognizes the title foreground draw (fill `(50, 50, 50)`). -/
def isTitleForeground : DrawOp → Bool
  | .text _ _ s fill _ => s == title && fill == (50, 50, 50)
  | _ => false

/-- Recognizes the subtitle foreground draw (fill `(80, 80, 80)`). -/
def isSubtitleForeground : DrawOp → Bool
  | .text _ _ s fill _ => s == subtitle && fill == (80, 80, 80)
  | _ => false

/-- Position of the first title-foreground draw in the trace. -/
def titleForegroundPos (r : RunResult) : Option (Int × Int) :=
  match r.ops.find? isTitleForeground with
  | some (.text x y _ _ _) => some (x, y)
  | _ => none

/-- Position of the first subtitle-foreground draw in the trace. -/
def subtitleForegroundPos (r : RunResult) : Option (Int × Int) :=
  match r.ops.find? isSubtitleForeground with
  | some (.text x y _ _ _) => some (x, y)
  | _ => none

/-- The handle `ImageFont.load_default()` yields in the concrete test
environments below. -/
def dfltFont : Font := ⟨"default", 0⟩

/-- A host with no system fonts at all: every `truetype` call raises and only
the built-in default font is available.  Text metrics: 6 pixels per
character, 11 pixels tall. -/
def envDefaultOnly : Env :=
  { truetype := fun _ _ => none
    loadDefault := some dfltFont
    textbbox := fun _ s => ⟨0, 0, 6 * (s.length : Int), 11⟩
    fs := fun _ => none }

/-- Like `envDefaultOnly` but with different preexisting file contents on
disk. -/
def envDefaultOnlyFs : Env :=
  { envDefaultOnly with fs := fun _ => some [] }

/-- A host where every `truetype` call succeeds (returning a handle tagged
with the requested path and size). -/
def envArialOnly : Env :=
  { truetype := fun p s => if p = arialPath then some ⟨p, s⟩ else none
    loadDefault := none
    textbbox := fun _ s => ⟨0, 0, 6 * (s.length : Int), 11⟩
    fs := fun _ => none }

/-- A host where `truetype` succeeds only at size 24, so both named 24pt
attempts succeed but the 16pt attempt fails. -/
def env24Only : Env :=
  { truetype := fun p s => if s = 24 then some ⟨p, s⟩ else none
    loadDefault := some dfltFont
    textbbox := fun _ s => ⟨0, 0, 6 * (s.length : Int), 11⟩
    fs := fun _ => none }

/-- A host whose metrics report the title as 501 pixels wide (and everything
else 100×10): used to separate floor division from truncation toward zero. -/
def envWide : Env :=
  { truetype := fun _ _ => none
    loadDefault := some dfltFont
    textbbox := fun _ s => if s == title then ⟨0, 0, 501, 20⟩ else ⟨0, 0, 100, 10⟩
    fs := fun _ => none }

/-- The run result produced on `envDefaultOnly`: title is 54×11, so the
foreground lands at `((500-54)/2, 150-11-10) = (223, 129)`; the subtitle is
162 wide, so its foreground lands at `((500-162)/2, 160) = (169, 160)`. -/
def runDefault : RunResult :=
  { imgWidth := 500
    imgHeight := 300
    ops := ((List.range 300).map fun row => DrawOp.line 0 row 500 row (gradColor row)) ++
      [DrawOp.text 225 131 title (100, 100, 100) dfltFont,
       DrawOp.text 223 129 title (50, 50, 50) dfltFont] ++
      [DrawOp.text 170 161 subtitle (120, 120, 120) dfltFont,
       DrawOp.text 169 160 subtitle (80, 80, 80) dfltFont]
    mkdirs := ["native/resources"]
    saved := [(output_path, "PNG")]
    printed := ["DMG background image created: " ++ output_path] }

/-- Claim C1: title font resolution is a strict ordered fallback chain —
first named font at size 24, then second named font at size 24, then the
built-in default; resolution yields no handle only when even the default
font fails to load. -/
theorem title_font_fallback (env : Env) :
    (∀ f, env.truetype arialPath 24 = some f → font env = some f) ∧
    (env.truetype arialPath 24 = none →
      ∀ f, env.truetype helveticaPath 24 = some f → font env = some f) ∧
    (env.truetype arialPath 24 = none → env.truetype helveticaPath 24 = none →
      font env = env.loadDefault) ∧
    (font env = none → env.loadDefault = none) := by
  refine ⟨fun f hf => by simp [font, hf],
          fun h1 f h2 => by simp [font, h1, h2],
          fun h1 h2 => by simp [font, h1, h2],
          fun h => ?_⟩
  unfold font at h
  cases ha : env.truetype arialPath 24 with
  | some f => rw [ha] at h; cases h
  | none =>
    rw [ha] at h
    cases hb : env.truetype helveticaPath 24 with
    | some f => rw [hb] at h; cases h
    | none => rw [hb] at h; exact h

/-- Claim C1 witness: on a host where the first named font loads, resolution
returns it; on a host where both named fonts fail, resolution returns the
default font. -/
theorem title_font_fallback_witness :
    font envArialOnly = some ⟨arialPath, 24⟩ ∧
    font envDefaultOnly = envDefaultOnly.loadDefault :=
  ⟨(title_font_fallback envArialOnly).1 ⟨arialPath, 24⟩ rfl,
   (title_font_fallback envDefaultOnly).2.2.1 rfl rfl⟩

/-- Claim C7: subtitle font resolution makes one attempt at the named font
at 16pt and collapses directly to the default font on any failure; it is
resolved independently of everything else in the environment (in particular
of the 24pt queries and of the title's handle). -/
theorem subtitle_font_fallback (env env2 : Env) :
    (∀ f, env.truetype arialPath 16 = some f → small_font env = some f) ∧
    (env.truetype arialPath 16 = none → small_font env = env.loadDefault) ∧
    (env.truetype arialPath 16 = env2.truetype arialPath 16 →
      env.loadDefault = env2.loadDefault → small_font env = small_font env2) := by
  refine ⟨fun f hf => by simp [small_font, hf],
          fun h1 => by simp [small_font, h1],
          fun h1 h2 => ?_⟩
  unfold small_font
  rw [h1, h2]

/-- Claim C7 witness: with no fonts on the host the subtitle font is the
default font, and the resolution agrees with a host that differs only in its
24pt font availability. -/
theorem subtitle_font_fallback_witness :
    small_font envDefaultOnly = envDefaultOnly.loadDefault ∧
    small_font envDefaultOnly = small_font env24Only :=
  ⟨(subtitle_font_fallback envDefaultOnly env24Only).2.1 rfl,
   (subtitle_font_fallback envDefaultOnly env24Only).2.2 rfl rfl⟩

lemma find?_lines_append (p : DrawOp → Bool)
    (hline : ∀ x0 y0 x1 y1 c, p (DrawOp.line x0 y0 x1 y1 c) = false)
    (L : List Nat) (rest : List DrawOp) :
    ((L.map fun y => DrawOp.line 0 y width y (gradColor y)) ++ rest).find? p
      = rest.find? p := by
  induction L with
  | nil => rfl
  | cons r L ih =>
    rw [List.map_cons, List.cons_append,
        List.find?_cons_of_neg _ (by simp [hline]), ih]

/-- Claim C6: every successful run's trace is the gradient lines followed by
title shadow at offset `(+2,+2)` in `(100,100,100)`, then title foreground
unshifted in `(50,50,50)`, then subtitle shadow at `(+1,+1)` in
`(120,120,120)`, then subtitle foreground in `(80,80,80)`; each shadow draw
strictly precedes its foreground draw. -/
theorem text_shadow_before_foreground (env : Env) (r : RunResult)
    (h : create_dmg_background env = some r) :
    ∃ (f sf : Font) (x y sx sy : Int),
      font env = some f ∧ small_font env = some sf ∧
      r.ops = ((List.range height).map fun row =>
          DrawOp.line 0 row width row (gradColor row)) ++
        [DrawOp.text (x + 2) (y + 2) title (100, 100, 100) f,
         DrawOp.text x y title (50, 50, 50) f,
         DrawOp.text (sx + 1) (sy + 1) subtitle (120, 120, 120) sf,
         DrawOp.text sx sy subtitle (80, 80, 80) sf] := by
  unfold create_dmg_background at h
  cases hf : font env with
  | none => rw [hf] at h; cases h
  | some f =>
    rw [hf] at h
    cases hsf : small_font env with
    | none => rw [hsf] at h; cases h
    | some sf =>
      rw [hsf] at h
      injection h with h
      subst h
      refine ⟨f, sf,
        ((width : Int) - ((env.textbbox f title).x1 - (env.textbbox f title).x0)).fdiv 2,
        ((height : Int)).fdiv 2 - ((env.textbbox f title).y1 - (env.textbbox f title).y0) - 10,
        ((width : Int) - ((env.textbbox sf subtitle).x1 - (env.textbbox sf subtitle).x0)).fdiv 2,
        ((height : Int)).fdiv 2 + 10,
        rfl, rfl, ?_⟩
      simp

/-- Claim C6 witness: the trace decomposition on the concrete
no-system-fonts host. -/
theorem text_shadow_before_foreground_witness :
    ∃ (f sf : Font) (x y sx sy : Int),
      font envDefaultOnly = some f ∧ small_font envDefaultOnly = some sf ∧
      runDefault.ops = ((List.range height).map fun row =>
          DrawOp.line 0 row width row (gradColor row)) ++
        [DrawOp.text (x + 2) (y + 2) title (100, 100, 100) f,
         DrawOp.text x y title (50, 50, 50) f,
         DrawOp.text (sx + 1) (sy + 1) subtitle (120, 120, 120) sf,
         DrawOp.text sx sy subtitle (80, 80, 80) sf] :=
  text_shadow_before_foreground envDefaultOnly runDefault rfl

lemma titleForegroundPos_mk (w h : Nat) (md : List String)
    (sv : List (String × String)) (pr : List String)
    (x y sx sy : Int) (f sf : Font) :
    titleForegroundPos ⟨w, h,
      ((List.range height).map fun row =>
          DrawOp.line 0 row width row (gradColor row)) ++
        [DrawOp.text (x + 2) (y + 2) title (100, 100, 100) f,
         DrawOp.text x y title (50, 50, 50) f] ++
        [DrawOp.text (sx + 1) (sy + 1) subtitle (120, 120, 120) sf,
         DrawOp.text sx sy subtitle (80, 80, 80) sf],
      md, sv, pr⟩ = some (x, y) := by
  unfold titleForegroundPos
  rw [List.append_assoc, List.cons_append, List.cons_append, List.nil_append,
      find?_lines_append _ (fun _ _ _ _ _ => rfl),
      List.find?_cons_of_neg _ (by simp [isTitleForeground]),
      List.find?_cons_of_pos _ (by simp [isTitleForeground])]

lemma subtitleForegroundPos_mk (w h : Nat) (md : List String)
    (sv : List (String × String)) (pr : List String)
    (x y sx sy : Int) (f sf : Font) :
    subtitleForegroundPos ⟨w, h,
      ((List.range height).map fun row =>
          DrawOp.line 0 row width row (gradColor row)) ++
        [DrawOp.text (x + 2) (y + 2) title (100, 100, 100) f,
         DrawOp.text x y title (50, 50, 50) f] ++
        [DrawOp.text (sx + 1) (sy + 1) subtitle (120, 120, 120) sf,
         DrawOp.text sx sy subtitle (80, 80, 80) sf],
      md, sv, pr⟩ = some (sx, sy) := by
  have hts : (title == subtitle) = false := by decide
  unfold subtitleForegroundPos
  rw [List.append_assoc, List.cons_append, List.cons_append, List.nil_append,
      find?_lines_append _ (fun _ _ _ _ _ => rfl),
      List.find?_cons_of_neg _ (by simp [isSubtitleForeground, hts]),
      List.find?_cons_of_neg _ (by simp [isSubtitleForeground, hts]),
      List.find?_cons_of_neg _ (by simp [isSubtitleForeground]),
      List.find?_cons_of_pos _ (by simp [isSubtitleForeground])]

/-- Claim C5 (amended): on every successful run, the title foreground lands
at `x = ⌊(500 - w) / 2⌋` (Python floor division) and
`y = 300/2 - h - 10` for the title's measured bounding box `w × h`, and the
subtitle foreground at `x = ⌊(500 - w') / 2⌋`, `y = 300/2 + 10`; floor
division agrees with rounding toward zero whenever the measured width is at
most 500. -/
theorem text_centering (env : Env) (r : RunResult)
    (h : create_dmg_background env = some r) :
    (∀ f, font env = some f →
      titleForegroundPos r = some
        (((width : Int) - ((env.textbbox f title).x1 - (env.textbbox f title).x0)).fdiv 2,
         ((height : Int)).fdiv 2 - ((env.textbbox f title).y1 - (env.textbbox f title).y0) - 10)) ∧
    (∀ sf, small_font env = some sf →
      subtitleForegroundPos r = some
        (((width : Int) - ((env.textbbox sf subtitle).x1 - (env.textbbox sf subtitle).x0)).fdiv 2,
         ((height : Int)).fdiv 2 + 10)) ∧
    (∀ w : Int, 0 ≤ w → w ≤ 500 →
      ((width : Int) - w).fdiv 2 = ((width : Int) - w).tdiv 2) := by
  unfold create_dmg_background at h
  cases hf : font env with
  | none => rw [hf] at h; cases h
  | some f =>
    rw [hf] at h
    cases hsf : small_font env with
    | none => rw [hsf] at h; cases h
    | some sf =>
      rw [hsf] at h
      injection h with h
      subst h
      refine ⟨?_, ?_, ?_⟩
      · intro f' hf'
        injection hf' with hf'
        subst hf'
        exact titleForegroundPos_mk _ _ _ _ _ _ _ _ _ _ _
      · intro sf' hsf'
        injection hsf' with hsf'
        subst hsf'
        exact subtitleForegroundPos_mk _ _ _ _ _ _ _ _ _ _ _
      · intro w hw0 hw1
        have hwid : ((width : Nat) : Int) = 500 := rfl
        rw [hwid]
        exact Int.fdiv_eq_tdiv (by omega) (by omega)

/-- Claim C5 witness: on the no-system-fonts host the title foreground is at
`(223, 129)` and the subtitle foreground at `(169, 160)`. -/
theorem text_centering_witness :
    titleForegroundPos runDefault = some (223, 129) ∧
    subtitleForegroundPos runDefault = some (169, 160) := by
  obtain ⟨h1, h2, _⟩ := text_centering envDefaultOnly runDefault rfl
  exact ⟨(h1 dfltFont rfl).trans (by decide), (h2 dfltFont rfl).trans (by decide)⟩

/-- Claim C5 counterexample: on a host whose metrics report the title as 501
pixels wide, the script places the title foreground at `x = (500 - 501) // 2
= -1` (floor division), whereas `(500 - 501) / 2` rounded toward zero is
`0`, so the claimed formula does not match the code. -/
theorem text_centering_counterexample :
    (create_dmg_background envWide).map titleForegroundPos = some (some (-1, 120)) ∧
    ((width : Int) - 501).tdiv 2 = 0 ∧ ((-1 : Int) = 0 → False) :=
  ⟨rfl, by decide, by decide⟩

lemma font_isSome (env : Env) (h : env.loadDefault.isSome = true) :
    (font env).isSome = true := by
  unfold font
  cases env.truetype arialPath 24 with
  | some f => rfl
  | none =>
    cases env.truetype helveticaPath 24 with
    | some f => rfl
    | none => exact h

lemma small_font_isSome (env : Env) (h : env.loadDefault.isSome = true) :
    (small_font env).isSome = true := by
  unfold small_font
  cases env.truetype arialPath 16 with
  | some f => rfl
  | none => exact h

/-- Claim C8: every successful run allocates a 500×300 image, creates the
parent directory, saves exactly one PNG at the fixed relative path, and
prints exactly one console line naming it; and whenever the default font
loads (in particular when no system fonts are available at all), the run
does succeed. -/
theorem run_output (env : Env) :
    (∀ r, create_dmg_background env = some r →
      r.imgWidth = 500 ∧ r.imgHeight = 300 ∧
      r.saved = [(output_path, "PNG")] ∧
      r.mkdirs = ["native/resources"] ∧
      r.printed = ["DMG background image created: native/resources/dmg_background.png"]) ∧
    (env.loadDefault.isSome = true → (create_dmg_background env).isSome = true) := by
  constructor
  · intro r h
    unfold create_dmg_background at h
    cases hf : font env with
    | none => rw [hf] at h; cases h
    | some f =>
      rw [hf] at h
      cases hsf : small_font env with
      | none => rw [hsf] at h; cases h
      | some sf =>
        rw [hsf] at h
        injection h with h
        subst h
        exact ⟨rfl, rfl, rfl, rfl, rfl⟩
  · intro hd
    unfold create_dmg_background
    cases hf : font env with
    | none =>
      have hcontra := font_isSome env hd
      rw [hf] at hcontra
      cases hcontra
    | some f =>
      cases hsf : small_font env with
      | none =>
        have hcontra := small_font_isSome env hd
        rw [hsf] at hcontra
        cases hcontra
      | some sf => rfl

/-- Claim C8 witness: the output facts on the concrete no-system-fonts host,
which does succeed. -/
theorem run_output_witness :
    (runDefault.imgWidth = 500 ∧ runDefault.imgHeight = 300 ∧
      runDefault.saved = [(output_path, "PNG")] ∧
      runDefault.mkdirs = ["native/resources"] ∧
      runDefault.printed = ["DMG background image created: native/resources/dmg_background.png"]) ∧
    (create_dmg_background envDefaultOnly).isSome = true :=
  ⟨(run_output envDefaultOnly).1 runDefault rfl, (run_output envDefaultOnly).2 rfl⟩

/-- Claim C9: the generator is deterministic — its entire observable outcome
is a function of the host's font availability and text metrics alone; in
particular it does not depend on the preexisting contents of the
filesystem, so two runs against the same fonts produce identical output. -/
theorem deterministic (e1 e2 : Env) (ht : e1.truetype = e2.truetype)
    (hd : e1.loadDefault = e2.loadDefault) (hb : e1.textbbox = e2.textbbox) :
    create_dmg_background e1 = create_dmg_background e2 := by
  unfold create_dmg_background font small_font
  simp only [ht, hd, hb]

/-- Claim C9 witness: two hosts with identical font availability but
different preexisting file contents yield identical runs. -/
theorem deterministic_witness :
    create_dmg_background envDefaultOnly = create_dmg_background envDefaultOnlyFs :=
  deterministic envDefaultOnly envDefaultOnlyFs rfl rfl rfl

end DmgBackground
